import Mathlib

/-!
Shallow embedding of `strava.py` (KevinDryfuse/strava-tracker).

The program periodically fetches activity pages from the Strava API,
filters them to type "Hike", converts distances from meters to miles,
writes JSON/CSV snapshots, and serves them over two read-only HTTP
endpoints.  Network responses, wall-clock readings and the token
obtained by an in-fetch refresh are modelled as an oracle script: a
finite list of `PageResp` entries, one per HTTP request the fetch loop
issues, each carrying the status code, the `X-RateLimit-Reset` header,
the parsed JSON body, the value of `time.time()` observed while
handling the response, and the access token a `refresh_access_token()`
call would return at that point.  Distances are modelled as rationals
(Python floats divide exactly at the inputs of interest here).
-/

namespace Strava

/-- One activity object as parsed from the Strava JSON payload
(fields consumed by `fetch_activities`, lines 141-151 of strava.py). -/
structure Activity where
  id : Int
  start_date : String
  type : String
  distance : ℚ
  suffer_score : Option ℚ
  average_heartrate : Option ℚ
deriving DecidableEq, Repr

/-- One record of the output shape built by the list comprehension in
`fetch_activities` (lines 141-151). -/
structure HikeRecord where
  id : Int
  date : String
  type : String
  distance : ℚ
  suffer_score : Option ℚ
  average_heartrate : Option ℚ
deriving DecidableEq, Repr

/-- `activity['distance'] / 1609.34` (line 146): meters to miles. -/
def metersToMiles (m : ℚ) : ℚ := m / (160934 / 100)

/-- The projection applied to each kept activity (lines 142-149). -/
def projectActivity (a : Activity) : HikeRecord :=
  { id := a.id
    date := a.start_date
    type := a.type
    distance := metersToMiles a.distance
    suffer_score := a.suffer_score
    average_heartrate := a.average_heartrate }

/-- The list comprehension of lines 141-151: keep activities whose
`type` is `"Hike"`, projected to the output shape. -/
def filterHikes (data : List Activity) : List HikeRecord :=
  (data.filter fun a => a.type = "Hike").map projectActivity

/-- Sleep duration of the 429 branch (lines 122-125):
`reset = int(headers.get('X-RateLimit-Reset', 0))`,
`wait = max(reset - now, 0)`, `time.sleep(wait or 15 * 60)`.
A missing header is `none`; `or` picks the 900-second fallback exactly
when `wait` is `0`. -/
def sleepFor (header : Option Int) (now : Int) : Int :=
  let wait := max (header.getD 0 - now) 0
  if wait = 0 then 900 else wait

/-- The oracle entry for one HTTP request issued by the fetch loop. -/
structure PageResp where
  status : Nat
  rlReset : Option Int
  data : List Activity
  now : Int
  newToken : String
deriving DecidableEq, Repr

/-- Observable events of one fetch run, for stating trace properties. -/
inductive FetchEvent where
  /-- a GET of `page` with `Authorization: Bearer token`. -/
  | request (page : Nat) (token : String)
  /-- `time.sleep(d)` in the 429 branch. -/
  | sleep (d : Int)
  /-- one call of `refresh_access_token()` returning `newToken`. -/
  | refresh (newToken : String)
  /-- a successful page body was consumed; `isEmpty` records `not data`. -/
  | gotPage (page : Nat) (isEmpty : Bool)
deriving DecidableEq, Repr

/-- Mutable state of the `while` loop of `fetch_activities`
(lines 111-114): current page, current bearer token, accumulator. -/
structure FetchSt where
  page : Nat
  token : String
  acc : List HikeRecord
deriving DecidableEq, Repr

/-- Result of a fetch run over a finite oracle script. -/
inductive FetchResult where
  /-- normal return of `fetch_activities` (line 157). -/
  | ok (activities : List HikeRecord) (trace : List FetchEvent)
  /-- `response.raise_for_status()` raised (line 134). -/
  | fetchError (status : Nat) (trace : List FetchEvent)
  /-- the oracle script ran out before the loop finished. -/
  | outOfScript (trace : List FetchEvent)
deriving DecidableEq, Repr

/-- Prefix extra events onto a result's trace. -/
def withTrace (es : List FetchEvent) : FetchResult → FetchResult
  | .ok a t => .ok a (es ++ t)
  | .fetchError s t => .fetchError s (es ++ t)
  | .outOfScript t => .outOfScript (es ++ t)

/-- The trace component of a result. -/
def traceOf : FetchResult → List FetchEvent
  | .ok _ t => t
  | .fetchError _ t => t
  | .outOfScript t => t

/-- The `while page <= max_pages` loop of `fetch_activities`
(lines 116-157), `max_pages = 50`.  Each iteration sends a request for
`st.page` with the current token and consumes the next script entry:
status 429 sleeps `sleepFor` and retries without advancing (lines
121-126); status 401 refreshes the token and retries (lines 128-132);
any other status in [400, 600) raises (line 134, `raise_for_status`);
an empty body breaks (lines 137-138); otherwise the Hike filter is
appended and the page advances (lines 141-154). -/
def fetch_loop : List PageResp → FetchSt → FetchResult
  | [], st =>
    if 50 < st.page then .ok st.acc []
    else .outOfScript [.request st.page st.token]
  | e :: rest, st =>
    if 50 < st.page then .ok st.acc []
    else if e.status = 429 then
      withTrace [.request st.page st.token, .sleep (sleepFor e.rlReset e.now)]
        (fetch_loop rest st)
    else if e.status = 401 then
      withTrace [.request st.page st.token, .refresh e.newToken]
        (fetch_loop rest { st with token := e.newToken })
    else if 400 ≤ e.status ∧ e.status < 600 then
      .fetchError e.status [.request st.page st.token]
    else if e.data = [] then
      .ok st.acc [.request st.page st.token, .gotPage st.page true]
    else
      withTrace [.request st.page st.token, .gotPage st.page false]
        (fetch_loop rest
          { st with page := st.page + 1, acc := st.acc ++ filterHikes e.data })

/-- The `(page, isEmpty)` log of successful page responses in a trace. -/
def pagesLog (t : List FetchEvent) : List (Nat × Bool) :=
  t.filterMap fun e =>
    match e with
    | .gotPage p b => some (p, b)
    | _ => none

/-- A response of the provider's token endpoint, as consumed by
`reauthorize_app` (line 73) and `refresh_access_token` (line 101):
the HTTP status plus the `access_token` / `refresh_token` fields. -/
structure TokenResp where
  status : Nat
  access_token : String
  refresh_token : String
deriving DecidableEq, Repr

/-- Oracle for one auth operation: the token-endpoint responses to the
authorization-code exchange (line 71) and to the refresh-token
exchange (line 96). -/
structure AuthEnv where
  codeResp : TokenResp
  refreshResp : TokenResp
deriving DecidableEq, Repr

/-- Auth-relevant process state: the `ACCESS_TOKEN` global (line 21)
and the raw contents of `refresh_token.txt` (`none` if the file does
not exist). -/
structure AuthState where
  access : Option String
  tokenFile : Option String
deriving DecidableEq, Repr

/-- Observable events of an auth operation. -/
inductive AuthEvent where
  /-- entry into `reauthorize_app()`. -/
  | reauthCall
  /-- the POST exchanging an authorization code for tokens (line 71). -/
  | authCodeExchange
  /-- the POST exchanging the stored refresh token for tokens (line 96). -/
  | refreshTokenExchange
deriving DecidableEq, Repr

/-- Result of an auth operation: the returned access token (or the
status `raise_for_status` raised with), the final state, and the
events performed. -/
structure AuthOutcome where
  result : Except Nat String
  state : AuthState
  events : List AuthEvent
deriving Repr

/-- Python's `str.strip()` with no argument: drop leading and
trailing whitespace characters. -/
def pyStrip (s : String) : String :=
  ⟨((s.data.dropWhile Char.isWhitespace).reverse.dropWhile
      Char.isWhitespace).reverse⟩

/-- `load_refresh_token` (lines 32-39): `file.read().strip()`, or
`None` when the file is missing. -/
def load_refresh_token (file : Option String) : Option String :=
  file.map pyStrip

/-- `save_refresh_token` (lines 42-45): overwrite the file. -/
def save_refresh_token (t : String) (st : AuthState) : AuthState :=
  { st with tokenFile := some t }

/-- `reauthorize_app` (lines 48-79): exchange the operator-entered
code for tokens; `raise_for_status` (line 72) raises on status in
[400, 600); on success set `ACCESS_TOKEN`, save the new refresh token
and return the access token. -/
def reauthorize_app (env : AuthEnv) (st : AuthState) : AuthOutcome :=
  if 400 ≤ env.codeResp.status ∧ env.codeResp.status < 600 then
    { result := .error env.codeResp.status
      state := st
      events := [.reauthCall, .authCodeExchange] }
  else
    { result := .ok env.codeResp.access_token
      state := save_refresh_token env.codeResp.refresh_token
        { st with access := some env.codeResp.access_token }
      events := [.reauthCall, .authCodeExchange] }

/-- Prefix extra events onto an auth outcome. -/
def prependEvents (es : List AuthEvent) (o : AuthOutcome) : AuthOutcome :=
  { o with events := es ++ o.events }

/-- `refresh_access_token` (lines 82-104): load the stored refresh
token; if falsy (`None` or empty string) delegate to
`reauthorize_app`; otherwise POST the refresh exchange; on a non-200
status delegate to `reauthorize_app`; otherwise set `ACCESS_TOKEN`,
save the new refresh token and return the access token. -/
def refresh_access_token (env : AuthEnv) (st : AuthState) : AuthOutcome :=
  match load_refresh_token st.tokenFile with
  | none => reauthorize_app env st
  | some tok =>
    if tok = "" then reauthorize_app env st
    else if env.refreshResp.status ≠ 200 then
      prependEvents [.refreshTokenExchange] (reauthorize_app env st)
    else
      { result := .ok env.refreshResp.access_token
        state := save_refresh_token env.refreshResp.refresh_token
          { st with access := some env.refreshResp.access_token }
        events := [.refreshTokenExchange] }

/-- Snapshot files on disk: `hiking_activities.json` as the parsed
record list and `hiking_activities.csv` as its list of comma-split
rows; `none` when the file does not exist. -/
structure FS where
  json : Option (List HikeRecord)
  csv : Option (List (List String))
deriving DecidableEq, Repr

/-- The fixed CSV header written by `write_activities_to_csv`
(lines 163-165). -/
def csvHeader : List String :=
  ["id", "date", "type", "distance", "suffer_score", "average_heartrate"]

/-- How `csv.DictWriter` renders one optional numeric field:
`None` becomes the empty string. -/
def optField (v : Option ℚ) : String :=
  match v with
  | none => ""
  | some q => toString q

/-- The CSV row `csv.DictWriter.writerow` produces for one record. -/
def encodeRow (r : HikeRecord) : List String :=
  [toString r.id, r.date, r.type, toString r.distance,
   optField r.suffer_score, optField r.average_heartrate]

/-- `write_activities_to_csv` (lines 160-167): whole-file overwrite
with the fixed header row followed by one row per record. -/
def write_activities_to_csv (acts : List HikeRecord) (fs : FS) : FS :=
  { fs with csv := some (csvHeader :: acts.map encodeRow) }

/-- The JSON dump of `main` (lines 211-212): whole-file overwrite. -/
def write_json (acts : List HikeRecord) (fs : FS) : FS :=
  { fs with json := some acts }

/-- A JSON response body as produced by `jsonify`. -/
inductive Body where
  /-- a JSON array of activity records (`/raw-activities`, line 189). -/
  | records (l : List HikeRecord)
  /-- a JSON array of string-valued row objects, each an ordered list
  of key/value pairs (`/activities`, line 177). -/
  | rows (l : List (List (String × String)))
  /-- a JSON object, an ordered list of key/value pairs. -/
  | obj (fields : List (String × String))
deriving DecidableEq, Repr

/-- `GET /activities` (lines 170-179): read the CSV snapshot with
`csv.DictReader` (header row zipped against each data row) and return
the rows with status 200, or a 404 error object when the file is
missing. -/
def get_activities (fs : FS) : Body × Nat :=
  match fs.csv with
  | none => (.obj [("error", "Activities file not found.")], 404)
  | some [] => (.rows [], 200)
  | some (hdr :: rows) => (.rows (rows.map fun row => hdr.zip row), 200)

/-- `GET /raw-activities` (lines 183-191): read the JSON snapshot and
return it with status 200, or a 404 error object when the file is
missing. -/
def get_raw_activities (fs : FS) : Body × Nat :=
  match fs.json with
  | none => (.obj [("error", "Raw activities file not found.")], 404)
  | some acts => (.records acts, 200)

/-- Outcome of one scheduler cycle. -/
inductive CycleOutcome where
  /-- the cycle ran to completion and wrote both snapshot files. -/
  | completed
  /-- a `requests` exception with the given status was caught at line
  224; the cycle was abandoned, the process keeps running. -/
  | errorCaught (status : Nat)
  /-- the oracle script ran out (no verdict). -/
  | noResponse
deriving DecidableEq, Repr

/-- One fetch-and-store cycle of `main` (lines 194-225), after the
token refresh: fetch the activities; on success write the JSON dump
then the CSV snapshot; a `requests` exception (here: the `FetchError`
of line 134) is caught at line 224, leaving the files untouched and
discarding the fetched records. -/
def main_cycle (script : List PageResp) (st : FetchSt) (fs : FS) :
    FS × CycleOutcome :=
  match fetch_loop script st with
  | .ok acts _ => (write_activities_to_csv acts (write_json acts fs), .completed)
  | .fetchError s _ => (fs, .errorCaught s)
  | .outOfScript _ => (fs, .noResponse)

end Strava

namespace Strava

example : metersToMiles (160934 / 100) = 1 := by norm_num [metersToMiles]

example : metersToMiles (321868 / 100) = 2 := by norm_num [metersToMiles]

example :
    fetch_loop [⟨200, none, [], 0, ""⟩] ⟨1, "t", []⟩ =
      .ok [] [.request 1 "t", .gotPage 1 true] := by decide

theorem traceOf_withTrace (es : List FetchEvent) (r : FetchResult) :
    traceOf (withTrace es r) = es ++ traceOf r := by
  cases r <;> rfl

theorem eq_ok_of_withTrace {es : List FetchEvent} {r : FetchResult}
    {a : List HikeRecord} {t : List FetchEvent}
    (h : withTrace es r = .ok a t) :
    ∃ t0, r = .ok a t0 ∧ t = es ++ t0 := by
  cases r with
  | ok a0 t0 =>
    simp only [withTrace, FetchResult.ok.injEq] at h
    exact ⟨t0, by rw [h.1], h.2.symm⟩
  | fetchError s t0 => simp [withTrace] at h
  | outOfScript t0 => simp [withTrace] at h

theorem fetch_loop_trace_head (e : PageResp) (rest : List PageResp)
    (st : FetchSt) (hp : st.page ≤ 50) :
    ∃ t, traceOf (fetch_loop (e :: rest) st) =
      FetchEvent.request st.page st.token :: t := by
  simp only [fetch_loop]
  rw [if_neg (Nat.not_lt.mpr hp)]
  split_ifs with h1 h2 h3 h4
  · exact ⟨FetchEvent.sleep (sleepFor e.rlReset e.now) :: traceOf (fetch_loop rest st),
      by simp [traceOf_withTrace]⟩
  · exact ⟨FetchEvent.refresh e.newToken ::
        traceOf (fetch_loop rest { st with token := e.newToken }),
      by simp [traceOf_withTrace]⟩
  · exact ⟨[], rfl⟩
  · exact ⟨[FetchEvent.gotPage st.page true], rfl⟩
  · exact ⟨FetchEvent.gotPage st.page false :: traceOf (fetch_loop rest
        { st with page := st.page + 1, acc := st.acc ++ filterHikes e.data }),
      by simp [traceOf_withTrace]⟩

end Strava

namespace Strava

/-- C1: the claim as stated is false; this amended form holds: a 429
response whose `X-RateLimit-Reset` header holds `T`, handled when
`time.time()` is `now`, makes the fetcher sleep `max(T - now, 0)`
seconds when that is positive, and the fixed 900-second fallback when
`max(T - now, 0) = 0` (so also whenever the header is absent, in which
case `T` defaults to `0`); it then re-requests the same page number
without advancing, with the token unchanged. -/
theorem c1_rate_limit_sleep_then_same_page (e : PageResp) (h429 : e.status = 429)
    (rest : List PageResp) (st : FetchSt) (hp : st.page ≤ 50) :
    fetch_loop (e :: rest) st =
      withTrace [.request st.page st.token, .sleep (sleepFor e.rlReset e.now)]
        (fetch_loop rest st)
    ∧ sleepFor e.rlReset e.now =
        (if max (e.rlReset.getD 0 - e.now) 0 = 0 then 900
         else max (e.rlReset.getD 0 - e.now) 0)
    ∧ (rest ≠ [] → ∃ t, traceOf (fetch_loop rest st) =
        FetchEvent.request st.page st.token :: t) := by
  refine ⟨?_, rfl, ?_⟩
  · simp only [fetch_loop]
    rw [if_neg (Nat.not_lt.mpr hp), if_pos h429]
  · intro hne
    obtain ⟨e2, rest2, rfl⟩ := List.exists_cons_of_ne_nil hne
    exact fetch_loop_trace_head e2 rest2 st hp

/-- C1 counterexample: with the header present and holding `T = 100`
while `now = 100`, the claim demands a sleep of
`max(T - now, 0) = 0` seconds, but the code (`time.sleep(wait_time or
15 * 60)`, line 125) sleeps the 900-second fallback. -/
theorem c1_falsified_at_reset_in_past :
    fetch_loop [⟨429, some 100, [], 100, ""⟩, ⟨200, none, [], 0, ""⟩] ⟨1, "t", []⟩ =
      .ok [] [.request 1 "t", .sleep 900, .request 1 "t", .gotPage 1 true]
    ∧ max ((100 : Int) - 100) 0 = 0 ∧ (900 : Int) ≠ 0 := by
  refine ⟨by decide, by decide, by decide⟩

/-- C1 witness for the amended theorem, at a 429 entry with header
`T = 5`, `now = 2`, page 1 and token `"t"`. -/
theorem c1_witness :
    fetch_loop [⟨429, some 5, [], 2, ""⟩, ⟨200, none, [], 0, ""⟩] ⟨1, "t", []⟩ =
      withTrace [.request 1 "t", .sleep (sleepFor (some 5) 2)]
        (fetch_loop [⟨200, none, [], 0, ""⟩] ⟨1, "t", []⟩)
    ∧ sleepFor (some 5) 2 =
        (if max ((some 5 : Option Int).getD 0 - 2) 0 = 0 then 900
         else max ((some 5 : Option Int).getD 0 - 2) 0)
    ∧ ([⟨200, none, [], 0, ""⟩] ≠ ([] : List PageResp) →
        ∃ t, traceOf (fetch_loop [⟨200, none, [], 0, ""⟩] ⟨1, "t", []⟩) =
          FetchEvent.request 1 "t" :: t) :=
  c1_rate_limit_sleep_then_same_page ⟨429, some 5, [], 2, ""⟩ rfl
    [⟨200, none, [], 0, ""⟩] ⟨1, "t", []⟩ (by decide)

/-- C2: a 401 response to a page request causes exactly one token
refresh (one `refresh` event) before the same page is retried, and the
retried request's Authorization header carries the newly obtained
access token. -/
theorem c2_unauthorized_refresh_then_same_page (e : PageResp) (h401 : e.status = 401)
    (rest : List PageResp) (st : FetchSt) (hp : st.page ≤ 50) :
    fetch_loop (e :: rest) st =
      withTrace [.request st.page st.token, .refresh e.newToken]
        (fetch_loop rest { st with token := e.newToken })
    ∧ (rest ≠ [] → ∃ t, traceOf (fetch_loop rest { st with token := e.newToken }) =
        FetchEvent.request st.page e.newToken :: t) := by
  constructor
  · simp only [fetch_loop]
    rw [if_neg (Nat.not_lt.mpr hp), if_neg (by simp [h401]), if_pos h401]
  · intro hne
    obtain ⟨e2, rest2, rfl⟩ := List.exists_cons_of_ne_nil hne
    exact fetch_loop_trace_head e2 rest2 { st with token := e.newToken } hp

/-- C2 witness: a 401 at page 1 under token `"old"`, refresh yields
`"new"`, then a successful empty page. -/
theorem c2_witness :
    fetch_loop [⟨401, none, [], 0, "new"⟩, ⟨200, none, [], 0, ""⟩] ⟨1, "old", []⟩ =
      withTrace [.request 1 "old", .refresh "new"]
        (fetch_loop [⟨200, none, [], 0, ""⟩] ⟨1, "new", []⟩)
    ∧ ([⟨200, none, [], 0, ""⟩] ≠ ([] : List PageResp) →
        ∃ t, traceOf (fetch_loop [⟨200, none, [], 0, ""⟩] ⟨1, "new", []⟩) =
          FetchEvent.request 1 "new" :: t) :=
  c2_unauthorized_refresh_then_same_page ⟨401, none, [], 0, "new"⟩ rfl
    [⟨200, none, [], 0, ""⟩] ⟨1, "old", []⟩ (by decide)

/-- C6: a page response with any non-success status other than 429 and
401 aborts the whole cycle: `fetch_activities` raises `FetchError`,
`main` catches it, neither the JSON nor the CSV snapshot is written
(the file system is returned unchanged, so the already-accumulated
records in `st.acc` are discarded), and the process does not exit
(the outcome is a caught error, not a crash). -/
theorem c6_fatal_status_aborts_cycle (e : PageResp) (rest : List PageResp)
    (st : FetchSt) (fs : FS)
    (h1 : e.status ≠ 429) (h2 : e.status ≠ 401)
    (h3 : 400 ≤ e.status) (h4 : e.status < 600) (hp : st.page ≤ 50) :
    fetch_loop (e :: rest) st = .fetchError e.status [.request st.page st.token]
    ∧ main_cycle (e :: rest) st fs = (fs, .errorCaught e.status) := by
  have hf : fetch_loop (e :: rest) st =
      .fetchError e.status [.request st.page st.token] := by
    simp only [fetch_loop]
    rw [if_neg (Nat.not_lt.mpr hp), if_neg h1, if_neg h2, if_pos ⟨h3, h4⟩]
  exact ⟨hf, by simp [main_cycle, hf]⟩

/-- C6 witness: a 500 at page 2 with one record already accumulated;
the file system (holding an old snapshot) is unchanged. -/
theorem c6_witness :
    fetch_loop [⟨500, none, [], 0, ""⟩] ⟨2, "t", [⟨7, "d", "Hike", 1, none, none⟩]⟩ =
      .fetchError 500 [.request 2 "t"]
    ∧ main_cycle [⟨500, none, [], 0, ""⟩] ⟨2, "t", [⟨7, "d", "Hike", 1, none, none⟩]⟩
        ⟨some [], some [csvHeader]⟩ =
      (⟨some [], some [csvHeader]⟩, .errorCaught 500) :=
  c6_fatal_status_aborts_cycle ⟨500, none, [], 0, ""⟩ []
    ⟨2, "t", [⟨7, "d", "Hike", 1, none, none⟩]⟩ ⟨some [], some [csvHeader]⟩
    (by decide) (by decide) (by decide) (by decide) (by decide)

end Strava


namespace Strava

theorem reauthorize_app_events (env : AuthEnv) (st : AuthState) :
    (reauthorize_app env st).events = [.reauthCall, .authCodeExchange] := by
  unfold reauthorize_app
  split_ifs <;> rfl

theorem reauthorize_app_ok {env : AuthEnv} {st : AuthState} {a : String}
    (h : (reauthorize_app env st).result = .ok a) :
    (reauthorize_app env st).state.tokenFile = some env.codeResp.refresh_token
    ∧ a = env.codeResp.access_token := by
  unfold reauthorize_app at h ⊢
  by_cases hs : 400 ≤ env.codeResp.status ∧ env.codeResp.status < 600
  · rw [if_pos hs] at h
    simp at h
  · rw [if_neg hs] at h ⊢
    simp only [Except.ok.injEq] at h
    exact ⟨rfl, h.symm⟩

theorem refresh_access_token_cases (env : AuthEnv) (st : AuthState) :
    refresh_access_token env st = reauthorize_app env st
    ∨ refresh_access_token env st =
        prependEvents [.refreshTokenExchange] (reauthorize_app env st)
    ∨ refresh_access_token env st =
        { result := .ok env.refreshResp.access_token
          state := save_refresh_token env.refreshResp.refresh_token
            { st with access := some env.refreshResp.access_token }
          events := [.refreshTokenExchange] } := by
  unfold refresh_access_token
  cases load_refresh_token st.tokenFile with
  | none => exact .inl rfl
  | some tok =>
    dsimp only
    by_cases htok : tok = ""
    · rw [if_pos htok]
      exact .inl rfl
    · rw [if_neg htok]
      by_cases hs : env.refreshResp.status ≠ 200
      · rw [if_pos hs]
        exact .inr (.inl rfl)
      · rw [if_neg hs]
        exact .inr (.inr rfl)

/-- C3: when no stored refresh token exists (`refresh_token.txt`
missing), `refresh_access_token` behaves exactly as `reauthorize_app`:
it enters `reauthorize_app` exactly once, performs no refresh-token
exchange request, and returns `reauthorize_app`'s result. -/
theorem c3_refresh_without_token_reauthorizes (env : AuthEnv) (st : AuthState)
    (h : st.tokenFile = none) :
    refresh_access_token env st = reauthorize_app env st
    ∧ (refresh_access_token env st).events = [.reauthCall, .authCodeExchange]
    ∧ (refresh_access_token env st).events.count AuthEvent.reauthCall = 1
    ∧ (refresh_access_token env st).events.count AuthEvent.refreshTokenExchange = 0
    ∧ (refresh_access_token env st).result = (reauthorize_app env st).result := by
  have heq : refresh_access_token env st = reauthorize_app env st := by
    simp [refresh_access_token, load_refresh_token, h]
  refine ⟨heq, ?_, ?_, ?_, by rw [heq]⟩ <;>
    rw [heq, reauthorize_app_events] <;> decide

/-- C3 witness at a concrete environment and a state with no token
file. -/
theorem c3_witness :
    refresh_access_token ⟨⟨200, "a", "r"⟩, ⟨200, "a2", "r2"⟩⟩ ⟨none, none⟩ =
      reauthorize_app ⟨⟨200, "a", "r"⟩, ⟨200, "a2", "r2"⟩⟩ ⟨none, none⟩
    ∧ (refresh_access_token ⟨⟨200, "a", "r"⟩, ⟨200, "a2", "r2"⟩⟩ ⟨none, none⟩).events =
        [.reauthCall, .authCodeExchange]
    ∧ (refresh_access_token ⟨⟨200, "a", "r"⟩, ⟨200, "a2", "r2"⟩⟩
        ⟨none, none⟩).events.count AuthEvent.reauthCall = 1
    ∧ (refresh_access_token ⟨⟨200, "a", "r"⟩, ⟨200, "a2", "r2"⟩⟩
        ⟨none, none⟩).events.count AuthEvent.refreshTokenExchange = 0
    ∧ (refresh_access_token ⟨⟨200, "a", "r"⟩, ⟨200, "a2", "r2"⟩⟩ ⟨none, none⟩).result =
        (reauthorize_app ⟨⟨200, "a", "r"⟩, ⟨200, "a2", "r2"⟩⟩ ⟨none, none⟩).result :=
  c3_refresh_without_token_reauthorizes ⟨⟨200, "a", "r"⟩, ⟨200, "a2", "r2"⟩⟩
    ⟨none, none⟩ rfl

/-- C9: every successful completion of `reauthorize_app` and of
`refresh_access_token` leaves the refresh-token file overwritten with
the refresh token of the token-endpoint response that succeeded (the
code-exchange response when reauthorization ran, otherwise the
refresh-exchange response), and returns that response's access
token. -/
theorem c9_success_persists_new_refresh_token (env : AuthEnv) (st : AuthState) :
    (∀ a, (reauthorize_app env st).result = .ok a →
      (reauthorize_app env st).state.tokenFile = some env.codeResp.refresh_token
      ∧ a = env.codeResp.access_token)
    ∧ (∀ a, (refresh_access_token env st).result = .ok a →
      (AuthEvent.authCodeExchange ∈ (refresh_access_token env st).events →
        (refresh_access_token env st).state.tokenFile = some env.codeResp.refresh_token
        ∧ a = env.codeResp.access_token)
      ∧ (AuthEvent.authCodeExchange ∉ (refresh_access_token env st).events →
        (refresh_access_token env st).state.tokenFile = some env.refreshResp.refresh_token
        ∧ a = env.refreshResp.access_token)) := by
  refine ⟨fun a ha => reauthorize_app_ok ha, ?_⟩
  intro a ha
  have hmem : AuthEvent.authCodeExchange ∈ (reauthorize_app env st).events := by
    rw [reauthorize_app_events]
    simp
  rcases refresh_access_token_cases env st with hcase | hcase | hcase
  · rw [hcase] at ha ⊢
    exact ⟨fun _ => reauthorize_app_ok ha, fun hn => absurd hmem hn⟩
  · rw [hcase] at ha ⊢
    have ha2 : (reauthorize_app env st).result = .ok a := ha
    have hmem2 : AuthEvent.authCodeExchange ∈
        (prependEvents [.refreshTokenExchange] (reauthorize_app env st)).events := by
      simp only [prependEvents, List.mem_append]
      exact Or.inr hmem
    exact ⟨fun _ => reauthorize_app_ok ha2, fun hn => absurd hmem2 hn⟩
  · rw [hcase] at ha ⊢
    simp only [Except.ok.injEq] at ha
    refine ⟨fun hm => absurd hm ?_, fun _ => ⟨rfl, ha.symm⟩⟩
    simp

/-- C9 witness at a concrete environment, on the refresh-exchange
path (stored token `"tok"`, exchange succeeds). -/
theorem c9_witness :
    ((reauthorize_app ⟨⟨200, "a", "r"⟩, ⟨200, "a2", "r2"⟩⟩ ⟨none, some "tok"⟩).result =
        .ok "a" →
      (reauthorize_app ⟨⟨200, "a", "r"⟩, ⟨200, "a2", "r2"⟩⟩
        ⟨none, some "tok"⟩).state.tokenFile = some "r" ∧ "a" = "a")
    ∧ ((refresh_access_token ⟨⟨200, "a", "r"⟩, ⟨200, "a2", "r2"⟩⟩
          ⟨none, some "tok"⟩).result = .ok "a2" →
      (AuthEvent.authCodeExchange ∈
          (refresh_access_token ⟨⟨200, "a", "r"⟩, ⟨200, "a2", "r2"⟩⟩
            ⟨none, some "tok"⟩).events →
        (refresh_access_token ⟨⟨200, "a", "r"⟩, ⟨200, "a2", "r2"⟩⟩
          ⟨none, some "tok"⟩).state.tokenFile = some "r" ∧ "a2" = "a")
      ∧ (AuthEvent.authCodeExchange ∉
          (refresh_access_token ⟨⟨200, "a", "r"⟩, ⟨200, "a2", "r2"⟩⟩
            ⟨none, some "tok"⟩).events →
        (refresh_access_token ⟨⟨200, "a", "r"⟩, ⟨200, "a2", "r2"⟩⟩
          ⟨none, some "tok"⟩).state.tokenFile = some "r2" ∧ "a2" = "a2")) :=
  ⟨fun h => (c9_success_persists_new_refresh_token
      ⟨⟨200, "a", "r"⟩, ⟨200, "a2", "r2"⟩⟩ ⟨none, some "tok"⟩).1 "a" h,
   fun h => (c9_success_persists_new_refresh_token
      ⟨⟨200, "a", "r"⟩, ⟨200, "a2", "r2"⟩⟩ ⟨none, some "tok"⟩).2 "a2" h⟩

/-- C10: loading the stored refresh token strips leading and trailing
whitespace from the file contents (and yields a missing signal for a
missing file), and `refresh_access_token` treats a token file whose
stripped contents are the empty string exactly like a missing file: it
behaves as `reauthorize_app` and performs no refresh-token exchange. -/
theorem c10_blank_token_file_like_missing :
    (∀ s : String, load_refresh_token (some s) = some (pyStrip s))
    ∧ load_refresh_token none = none
    ∧ (∀ (env : AuthEnv) (st : AuthState) (s : String),
        st.tokenFile = some s → pyStrip s = "" →
        refresh_access_token env st = reauthorize_app env st
        ∧ AuthEvent.refreshTokenExchange ∉ (refresh_access_token env st).events) := by
  refine ⟨fun s => rfl, rfl, ?_⟩
  intro env st s hfile hstrip
  have heq : refresh_access_token env st = reauthorize_app env st := by
    simp [refresh_access_token, load_refresh_token, hfile, hstrip]
  refine ⟨heq, ?_⟩
  rw [heq, reauthorize_app_events]
  decide

/-- C10 witness: a file holding whitespace-padded text is stripped,
and a file holding only blanks is treated like a missing file. -/
theorem c10_witness :
    load_refresh_token (some " ab ") = some (pyStrip " ab ")
    ∧ load_refresh_token none = none
    ∧ (refresh_access_token ⟨⟨200, "a", "r"⟩, ⟨200, "a2", "r2"⟩⟩ ⟨none, some "  "⟩ =
        reauthorize_app ⟨⟨200, "a", "r"⟩, ⟨200, "a2", "r2"⟩⟩ ⟨none, some "  "⟩
      ∧ AuthEvent.refreshTokenExchange ∉
          (refresh_access_token ⟨⟨200, "a", "r"⟩, ⟨200, "a2", "r2"⟩⟩
            ⟨none, some "  "⟩).events) :=
  ⟨c10_blank_token_file_like_missing.1 " ab ",
   c10_blank_token_file_like_missing.2.1,
   c10_blank_token_file_like_missing.2.2 ⟨⟨200, "a", "r"⟩, ⟨200, "a2", "r2"⟩⟩
     ⟨none, some "  "⟩ "  " rfl (by decide)⟩

end Strava

namespace Strava

/-- C4: the fetch output excludes every activity whose type is not
`"Hike"` and includes every activity of type `"Hike"`, with output
distance equal to input distance in meters divided by 1609.34; on the
example page of 3 activities of which 2 are hikes with distances
1609.34 m and 3218.68 m, the output is exactly 2 records with
distances 1.00 and 2.00 miles. -/
theorem c4_hike_filter_and_distance :
    (∀ (data : List Activity) (a : Activity), a ∈ data → a.type = "Hike" →
      projectActivity a ∈ filterHikes data
      ∧ (projectActivity a).distance = a.distance / (160934 / 100))
    ∧ (∀ (data : List Activity) (a : Activity), a ∈ data → a.type ≠ "Hike" →
      projectActivity a ∉ filterHikes data)
    ∧ filterHikes
        [⟨101, "2025-03-01", "Hike", 160934 / 100, some 50, some 120⟩,
         ⟨102, "2025-03-02", "Run", 5000, some 30, some 150⟩,
         ⟨103, "2025-03-03", "Hike", 321868 / 100, none, none⟩] =
      [⟨101, "2025-03-01", "Hike", 1, some 50, some 120⟩,
       ⟨103, "2025-03-03", "Hike", 2, none, none⟩] := by
  refine ⟨?_, ?_, ?_⟩
  · intro data a ha ht
    refine ⟨?_, rfl⟩
    simp only [filterHikes, List.mem_map]
    exact ⟨a, List.mem_filter.mpr ⟨ha, by simp [ht]⟩, rfl⟩
  · intro data a _ hne hmem
    simp only [filterHikes, List.mem_map] at hmem
    obtain ⟨b, hb, heq⟩ := hmem
    have hbt : b.type = "Hike" := by
      have := (List.mem_filter.mp hb).2
      simpa using this
    have hat : a.type = "Hike" := by
      have h1 : (projectActivity b).type = b.type := rfl
      have h2 : (projectActivity a).type = a.type := rfl
      rw [← h2, ← heq, h1, hbt]
    exact hne hat
  · simp only [filterHikes, List.filter, List.map]
    norm_num [projectActivity, metersToMiles]

/-- C4 witness: a hike is included with converted distance, and a run
is excluded, on a concrete two-activity page. -/
theorem c4_witness :
    (projectActivity ⟨101, "d", "Hike", 160934 / 100, none, none⟩ ∈
        filterHikes [⟨101, "d", "Hike", 160934 / 100, none, none⟩,
          ⟨102, "e", "Run", 5000, none, none⟩]
      ∧ (projectActivity ⟨101, "d", "Hike", 160934 / 100, none, none⟩).distance =
          (160934 / 100 : ℚ) / (160934 / 100))
    ∧ projectActivity ⟨102, "e", "Run", 5000, none, none⟩ ∉
        filterHikes [⟨101, "d", "Hike", 160934 / 100, none, none⟩,
          ⟨102, "e", "Run", 5000, none, none⟩] :=
  ⟨c4_hike_filter_and_distance.1
      [⟨101, "d", "Hike", 160934 / 100, none, none⟩,
       ⟨102, "e", "Run", 5000, none, none⟩]
      ⟨101, "d", "Hike", 160934 / 100, none, none⟩
      (List.mem_cons_self _ _) rfl,
   c4_hike_filter_and_distance.2.1
      [⟨101, "d", "Hike", 160934 / 100, none, none⟩,
       ⟨102, "e", "Run", 5000, none, none⟩]
      ⟨102, "e", "Run", 5000, none, none⟩
      (List.mem_cons_of_mem _ (List.mem_cons_self _ _)) (by decide)⟩

/-- C7: writing a sequence of N records and reading `GET
/raw-activities` back returns the same N records with identical field
values and status 200; reading `GET /activities` after the CSV write
returns N rows whose fields are the string renderings of the written
values (header keys zipped against `encodeRow`), with status 200. -/
theorem c7_snapshot_round_trip (acts : List HikeRecord) (fs fs2 : FS) :
    get_raw_activities (write_json acts fs) = (Body.records acts, 200)
    ∧ get_activities (write_activities_to_csv acts fs2) =
        (Body.rows (acts.map fun r => csvHeader.zip (encodeRow r)), 200)
    ∧ (acts.map fun r => csvHeader.zip (encodeRow r)).length = acts.length := by
  refine ⟨rfl, ?_, by simp⟩
  simp [get_activities, write_activities_to_csv, List.map_map]

/-- C8: when the relevant snapshot file does not exist,
`GET /activities` and `GET /raw-activities` return status 404 with a
JSON body holding an `error` key; when the file exists they return
status 200. -/
theorem c8_missing_snapshot_404 (fs : FS) :
    (fs.csv = none →
      get_activities fs = (Body.obj [("error", "Activities file not found.")], 404))
    ∧ (fs.json = none →
      get_raw_activities fs =
        (Body.obj [("error", "Raw activities file not found.")], 404))
    ∧ (∀ rows, fs.csv = some rows → (get_activities fs).2 = 200)
    ∧ (∀ acts, fs.json = some acts → (get_raw_activities fs).2 = 200) := by
  refine ⟨?_, ?_, ?_, ?_⟩
  · intro h
    simp [get_activities, h]
  · intro h
    simp [get_raw_activities, h]
  · intro rows h
    cases rows <;> simp [get_activities, h]
  · intro acts h
    simp [get_raw_activities, h]

/-- C8 witness: both endpoints on an empty disk, then on a disk with
both snapshot files present. -/
theorem c8_witness :
    get_activities ⟨none, none⟩ =
      (Body.obj [("error", "Activities file not found.")], 404)
    ∧ get_raw_activities ⟨none, none⟩ =
      (Body.obj [("error", "Raw activities file not found.")], 404)
    ∧ (get_activities ⟨some [], some [csvHeader]⟩).2 = 200
    ∧ (get_raw_activities ⟨some [], some [csvHeader]⟩).2 = 200 :=
  ⟨(c8_missing_snapshot_404 ⟨none, none⟩).1 rfl,
   (c8_missing_snapshot_404 ⟨none, none⟩).2.1 rfl,
   (c8_missing_snapshot_404 ⟨some [], some [csvHeader]⟩).2.2.1 [csvHeader] rfl,
   (c8_missing_snapshot_404 ⟨some [], some [csvHeader]⟩).2.2.2 [] rfl⟩

end Strava

namespace Strava

theorem fetch_loop_ok_shape (script : List PageResp) :
    ∀ (st : FetchSt) (acc : List HikeRecord) (tr : List FetchEvent),
    st.page ≤ 51 → fetch_loop script st = .ok acc tr →
    (∃ k, st.page + k ≤ 50 ∧
      pagesLog tr =
        ((List.range' st.page k).map fun q => (q, false)) ++ [(st.page + k, true)])
    ∨ pagesLog tr = (List.range' st.page (51 - st.page)).map fun q => (q, false) := by
  induction script with
  | nil =>
    intro st acc tr hle hok
    unfold fetch_loop at hok
    by_cases hp : 50 < st.page
    · rw [if_pos hp] at hok
      simp only [FetchResult.ok.injEq] at hok
      right
      rw [← hok.2]
      have h0 : 51 - st.page = 0 := by omega
      rw [h0]
      rfl
    · rw [if_neg hp] at hok
      exact absurd hok (by simp)
  | cons e rest ih =>
    intro st acc tr hle hok
    unfold fetch_loop at hok
    by_cases hp : 50 < st.page
    · rw [if_pos hp] at hok
      simp only [FetchResult.ok.injEq] at hok
      right
      rw [← hok.2]
      have h0 : 51 - st.page = 0 := by omega
      rw [h0]
      rfl
    · rw [if_neg hp] at hok
      push_neg at hp
      by_cases h429 : e.status = 429
      · rw [if_pos h429] at hok
        obtain ⟨t0, hrec, htr⟩ := eq_ok_of_withTrace hok
        have hlog : pagesLog tr = pagesLog t0 := by
          rw [htr]
          simp [pagesLog]
        rw [hlog]
        exact ih st acc t0 hle hrec
      · rw [if_neg h429] at hok
        by_cases h401 : e.status = 401
        · rw [if_pos h401] at hok
          obtain ⟨t0, hrec, htr⟩ := eq_ok_of_withTrace hok
          have hlog : pagesLog tr = pagesLog t0 := by
            rw [htr]
            simp [pagesLog]
          rw [hlog]
          exact ih { st with token := e.newToken } acc t0 hle hrec
        · rw [if_neg h401] at hok
          by_cases herr : 400 ≤ e.status ∧ e.status < 600
          · rw [if_pos herr] at hok
            exact absurd hok (by simp)
          · rw [if_neg herr] at hok
            by_cases hdat : e.data = []
            · rw [if_pos hdat] at hok
              simp only [FetchResult.ok.injEq] at hok
              refine .inl ⟨0, by omega, ?_⟩
              rw [← hok.2]
              simp [pagesLog]
            · rw [if_neg hdat] at hok
              obtain ⟨t0, hrec, htr⟩ := eq_ok_of_withTrace hok
              have hlog : pagesLog tr = (st.page, false) :: pagesLog t0 := by
                rw [htr]
                simp [pagesLog]
              have hrec2 := ih ⟨st.page + 1, st.token, st.acc ++ filterHikes e.data⟩
                acc t0 (by simp; omega) hrec
              rcases hrec2 with ⟨k, hk, hlog0⟩ | hlog0
              · refine .inl ⟨k + 1, by simp at hk; omega, ?_⟩
                rw [hlog, hlog0]
                have hr : List.range' st.page (k + 1) =
                    st.page :: List.range' (st.page + 1) k := List.range'_succ _ _ _
                rw [hr]
                have ha : st.page + (k + 1) = st.page + 1 + k := by omega
                rw [ha]
                simp
              · right
                rw [hlog, hlog0]
                have h1 : 51 - st.page = (51 - (st.page + 1)) + 1 := by omega
                rw [h1, List.range'_succ]
                simp

/-- C5: over every oracle script under which the fetch run returns
normally (every page request eventually got a successful response),
pagination stops exactly at the first page whose successful response
is an empty list, or after the fixed ceiling of 50 pages, whichever
comes first: the per-page success log is either nonempty successes
for pages `1..k` followed by an empty page `k+1 ≤ 50`, or nonempty
successes for exactly pages `1..50`.  Retries for 429/401 never
appear in the log and do not count toward the ceiling (the script may
hold arbitrarily many such responses). -/
theorem c5_pagination_stops_at_empty_or_ceiling
    (script : List PageResp) (tok : String)
    (acc : List HikeRecord) (tr : List FetchEvent)
    (hok : fetch_loop script ⟨1, tok, []⟩ = .ok acc tr) :
    (∃ k, 1 + k ≤ 50 ∧
      pagesLog tr =
        ((List.range' 1 k).map fun q => (q, false)) ++ [(1 + k, true)])
    ∨ pagesLog tr = (List.range' 1 50).map fun q => (q, false) := by
  have := fetch_loop_ok_shape script ⟨1, tok, []⟩ acc tr (by norm_num) hok
  simpa using this

/-- C5 witness: a run whose script retries page 1 on a 429, then gets
a nonempty page 1 and an empty page 2, stops at page 2. -/
theorem c5_witness :
    (∃ k, 1 + k ≤ 50 ∧
      pagesLog [FetchEvent.request 1 "t", FetchEvent.sleep 900,
          FetchEvent.request 1 "t", FetchEvent.gotPage 1 false,
          FetchEvent.request 2 "t", FetchEvent.gotPage 2 true] =
        ((List.range' 1 k).map fun q => (q, false)) ++ [(1 + k, true)])
    ∨ pagesLog [FetchEvent.request 1 "t", FetchEvent.sleep 900,
          FetchEvent.request 1 "t", FetchEvent.gotPage 1 false,
          FetchEvent.request 2 "t", FetchEvent.gotPage 2 true] =
        (List.range' 1 50).map fun q => (q, false) :=
  c5_pagination_stops_at_empty_or_ceiling
    [⟨429, none, [], 1000, ""⟩,
     ⟨200, none, [⟨7, "d", "Run", 5, none, none⟩], 0, ""⟩,
     ⟨200, none, [], 0, ""⟩]
    "t" [] _ (by decide)

end Strava
